import Mathlib

/-!
Verification of the outfitOO backend (src/main.py): the session codec,
the auth gate, the OAuth routes and the upload/generate endpoint, embedded
shallowly.  Python dictionaries carrying JSON payloads are embedded as
association lists with optional (nullable) string values; HTTP responses
are a record of status, Location header, Set-Cookie value and body; the
external collaborators (identity provider, object storage, database) are
environment records passed to the handlers; observable external calls are
returned as an explicit effect list.
-/

/-- A JSON-object payload as signed into the session token:
keys mapped to nullable string values (Python `None` is `Option.none`). -/
def Payload : Type := List (String × Option String)

instance : DecidableEq Payload := by unfold Payload; infer_instance

/-- Python `dict.get(k)`: `None` both when the key is absent and when the
stored value is `None` itself. -/
def dictGet (k : String) (p : Payload) : Option String :=
  match p.lookup k with
  | none => none
  | some v => v

/-- Python truthiness of an optional string: `None` and `""` are falsy. -/
def falsyStr : Option String → Bool
  | none => true
  | some s => s = ""

/-- Numeric code of a string, used by the modelled authentication code. -/
def strCode (s : String) : Nat :=
  s.data.foldl (fun a c => a * 1114112 + c.toNat + 1) 7

/-- Numeric code of a payload, used by the modelled authentication code. -/
def payloadCode (p : Payload) : Nat :=
  p.foldl (fun a kv =>
    a * 65599 + strCode kv.1 * 3 +
      (match kv.2 with | none => 0 | some v => strCode v * 2 + 1)) 11

/-- Modelled from the spec: the keyed message authentication code that the
`itsdangerous.URLSafeTimedSerializer` behind `serializer` (library code not
under src/) computes over the serialized payload and the embedded issuance
timestamp using the server-held secret (spec 4.1).  The proofs below use
only that it is a deterministic function of (secret, payload, timestamp);
its cryptographic strength is not modelled. -/
def mac (secret : String) (p : Payload) (ts : Nat) : Nat :=
  (strCode secret * 2 + 1) * 1000003 + payloadCode p * 31 + ts

/-- A cookie/token value on the wire: either a well-formed signed token
(payload, issuance timestamp, signature) or an arbitrary malformed string
that does not parse as a signed token. -/
inductive TokenWire : Type
  | signed (payload : Payload) (timestamp : Nat) (sig : Nat)
  | garbage (raw : String)
deriving DecidableEq

/-- Modelled from the spec: `serializer.dumps` of the
`itsdangerous.URLSafeTimedSerializer` (library code not under src/):
serializes the payload together with the issuance timestamp and appends
the keyed signature (spec 4.1 issue). -/
def dumps (secret : String) (p : Payload) (ts : Nat) : TokenWire :=
  .signed p ts (mac secret p ts)

/-- Modelled from the spec: `serializer.loads(token, max_age)` of the
`itsdangerous.URLSafeTimedSerializer` (library code not under src/):
returns the payload when the token parses, the recomputed signature
matches the embedded one, and the age `now - timestamp` does not exceed
`max_age`; returns `none` (the caller's exception path) on malformed
input, signature mismatch, or expiry `now - timestamp > max_age`
(spec 4.1 verify). -/
def loads (secret : String) (tok : TokenWire) (max_age now : Nat) :
    Option Payload :=
  match tok with
  | .garbage _ => none
  | .signed p ts sig =>
    if sig = mac secret p ts then
      if now - ts > max_age then none else some p
    else none

/-- Flip one bit of the signature portion of a token; a malformed token is
left unchanged (it has no signature portion). -/
def flipSigBit (i : Nat) (tok : TokenWire) : TokenWire :=
  match tok with
  | .signed p ts sig => .signed p ts (sig ^^^ 2 ^ i)
  | .garbage raw => .garbage raw

/-- Name of the session cookie (src/main.py line 32). -/
def COOKIE_NAME : String := "outfitoo_session"

/-- An incoming request, reduced to what the handlers read: the value of
the `outfitoo_session` cookie, when present. -/
structure Request : Type where
  cookie : Option TokenWire
deriving DecidableEq

/-- Body of an HTTP response produced by the service. -/
inductive RespBody : Type
  | empty
  | template (name : String) (userEmail : Option String)
  | jsonDetail (detail : String)
  | jsonSuccess (imageUrl : String)
deriving DecidableEq

/-- An HTTP response, reduced to what the claims observe: status code,
Location header, Set-Cookie value for the session cookie, and body. -/
structure HttpResponse : Type where
  status : Nat
  location : Option String := none
  setCookie : Option TokenWire := none
  body : RespBody := .empty
deriving DecidableEq

/-- The response is a 3xx redirect to the given location. -/
def HttpResponse.isRedirectTo (r : HttpResponse) (loc : String) : Bool :=
  300 ≤ r.status && r.status < 400 && r.location = some loc

/-- The response renders the given template (with some context). -/
def HttpResponse.rendersTemplate (r : HttpResponse) (name : String) : Bool :=
  match r.body with
  | .template n _ => n = name
  | _ => false

/-- src/main.py lines 63-74, `get_current_user_email`: read the session
cookie; `None` when it is absent; unsign it with max age 86400 seconds and
return `data.get("email")`; any unsigning failure yields `None` via the
bare `except`. -/
def get_current_user_email (secret : String) (req : Request) (now : Nat) :
    Option String :=
  match req.cookie with
  | none => none
  | some session_token =>
    match loads secret session_token 86400 now with
    | none => none
    | some data => dictGet "email" data

/-- Response produced by FastAPI for the `HTTPException` raised in
`require_login`: status 307, `Location: /` header, JSON detail body. -/
def authFailResponse : HttpResponse :=
  { status := 307, location := some "/", setCookie := none,
    body := .jsonDetail "Not authorized" }

/-- src/main.py lines 77-86, `require_login`: the dependency guarding
protected routes.  A falsy email (no valid session) raises an
`HTTPException` with status 307 and a `Location: /` header, which FastAPI
renders as `authFailResponse`; otherwise the resolved email is supplied to
the handler. -/
def require_login (secret : String) (req : Request) (now : Nat) :
    Except HttpResponse String :=
  match get_current_user_email secret req now with
  | none => .error authFailResponse
  | some e => if e = "" then .error authFailResponse else .ok e

/-- src/main.py lines 107-115, `dashboard_page`: protected by
`require_login`; on success renders the dashboard template with the
resolved email. -/
def dashboard_page (secret : String) (req : Request) (now : Nat) :
    HttpResponse :=
  match require_login secret req now with
  | .error r => r
  | .ok user_email =>
    { status := 200, body := .template "dashboard.html" (some user_email) }

/-- Uppercase hexadecimal digit, as Python percent-encoding emits. -/
def hexDigit (n : Nat) : Char :=
  if n < 10 then Char.ofNat (48 + n) else Char.ofNat (55 + n)

/-- UTF-8 bytes of a character. -/
def utf8Bytes (c : Char) : List Nat :=
  let n := c.toNat
  if n < 128 then [n]
  else if n < 2048 then [192 + n / 64, 128 + n % 64]
  else if n < 65536 then [224 + n / 4096, 128 + (n / 64) % 64, 128 + n % 64]
  else [240 + n / 262144, 128 + (n / 4096) % 64, 128 + (n / 64) % 64,
        128 + n % 64]

/-- Characters Python `urllib.parse.quote_plus` never encodes
(letters, digits, underscore, dot, hyphen, tilde). -/
def isUrlSafe (c : Char) : Bool :=
  (97 ≤ c.toNat && c.toNat ≤ 122) || (65 ≤ c.toNat && c.toNat ≤ 90) ||
  (48 ≤ c.toNat && c.toNat ≤ 57) || c = '_' || c = '.' || c = '-' || c = '~'

/-- Python `urllib.parse.quote_plus` (stdlib, not under src/): spaces
become `+`, safe characters pass through, every other character is
percent-encoded byte by byte. -/
def quote_plus (s : String) : String :=
  ⟨s.data.foldr (fun c acc =>
    if c = ' ' then '+' :: acc
    else if isUrlSafe c then c :: acc
    else (utf8Bytes c).foldr
      (fun b a => '%' :: hexDigit (b / 16) :: hexDigit (b % 16) :: a)
      acc) []⟩

/-- Python `str()` of an optional string: `None` renders as the literal
string `None`, exactly as `urlencode` stringifies a `None` value. -/
def pyStr : Option String → String
  | none => "None"
  | some s => s

/-- Python `urllib.parse.urlencode` (stdlib, not under src/) on an
ordered dict of nullable string values. -/
def urlencode (params : List (String × Option String)) : String :=
  String.intercalate "&"
    (params.map (fun kv => quote_plus kv.1 ++ "=" ++ quote_plus (pyStr kv.2)))

/-- Plain `RedirectResponse("/")`: FastAPI default status 307. -/
def redirectHome : HttpResponse :=
  { status := 307, location := some "/" }

/-- src/main.py lines 240-252, `login_google`: unconditionally builds the
provider authorization URL from the configured client id and redirect URI
(read from the environment, possibly absent) and answers with a redirect
to it.  There is no configuration guard. -/
def login_google (clientId redirectUri : Option String) : HttpResponse :=
  let auth_url := "https://accounts.google.com/o/oauth2/v2/auth"
  let params : List (String × Option String) :=
    [("client_id", clientId),
     ("redirect_uri", redirectUri),
     ("response_type", some "code"),
     ("scope", some "openid email profile"),
     ("access_type", some "online"),
     ("prompt", some "select_account")]
  { status := 307, location := some (auth_url ++ "?" ++ urlencode params) }

/-- A response of the external identity provider: HTTP status plus the
JSON object body (nullable string values). -/
structure ProviderResp : Type where
  status : Nat
  json : Payload
deriving DecidableEq

/-- httpx success range: `raise_for_status` raises on any non-2xx. -/
def is2xx (r : ProviderResp) : Bool :=
  200 ≤ r.status && r.status < 300

/-- Environment of the OAuth callback: the token-endpoint response to the
code exchange, and the userinfo-endpoint response as a function of the
bearer access token the handler sends. -/
structure CallbackEnv : Type where
  tokenResp : ProviderResp
  userinfoResp : Option String → ProviderResp

/-- src/main.py lines 254-300, `google_callback`: on a truthy `error`
parameter or a falsy `code` parameter, redirect home.  Otherwise exchange
the code (any non-2xx raises, caught as a redirect home), read
`access_token` from the JSON with no presence check, call userinfo with
it (non-2xx again a redirect home), read `email`, sign the payload with
key `email`, and answer a 302 redirect to the dashboard that sets the
session cookie.  `ts` is the issuance timestamp the serializer embeds. -/
def google_callback (secret : String) (code error : Option String)
    (env : CallbackEnv) (ts : Nat) : HttpResponse :=
  if !falsyStr error || falsyStr code then redirectHome
  else
    let token_resp := env.tokenResp
    if !is2xx token_resp then redirectHome
    else
      let access_token := dictGet "access_token" token_resp.json
      let user_resp := env.userinfoResp access_token
      if !is2xx user_resp then redirectHome
      else
        let user_email := dictGet "email" user_resp.json
        let session_token := dumps secret [("email", user_email)] ts
        { status := 302, location := some "/dashboard",
          setCookie := some session_token }

/-- Python `os.path.splitext(s)[1]` (stdlib, not under src/): the suffix
from the last dot on, where the leading run of dots does not start an
extension. -/
def splitextExt (s : String) : String :=
  let cs := s.data
  let lead := (cs.takeWhile (· = '.')).length
  let rest := cs.drop lead
  if rest.contains '.' then
    ⟨'.' :: (rest.reverse.takeWhile (fun c => c ≠ '.')).reverse⟩
  else ""

/-- Python `x or d` on an optional string: the default replaces `None`
and the empty string. -/
def pyOrStr (v : Option String) (d : String) : String :=
  match v with
  | none => d
  | some s => if s = "" then d else s

/-- Python `str.replace(old, new)` (stdlib, not under src/) for the
single-character patterns used at src/main.py line 198: every occurrence
of the character is substituted. -/
def replaceChar (s : String) (old : Char) (new : String) : String :=
  ⟨(s.data.map (fun c => if c = old then new.data else [c])).flatten⟩

/-- One uploaded multipart file part. -/
structure FilePart : Type where
  filename : String
  contentType : Option String
  content : List Nat
deriving DecidableEq

/-- Environment of the generate endpoint: whether the storage/DB client
and the LLM were configured at startup, the random UUID drawn for the
storage key, and the outcomes of the two fallible external calls
(`none` means success, `some msg` the raised error message). -/
structure GenEnv : Type where
  supabaseConfigured : Bool
  llmConfigured : Bool
  uuid : String
  uploadError : Option String
  publicUrl : String
  insertError : Option String
deriving DecidableEq

/-- An observable external call made by the generate endpoint. -/
inductive ExtCall : Type
  | storageUpload (path : String) (bytes : List Nat) (contentType : String)
  | dbInsert (userId : String) (imageUrl : String)
deriving DecidableEq

/-- FastAPI response for a missing required `File(...)` parameter. -/
def validationErrorResponse : HttpResponse :=
  { status := 422, body := .jsonDetail "field required" }

/-- src/main.py lines 144-227, `generate_outfit_api` under its FastAPI
route machinery: the `require_login` dependency runs first (its 307
`HTTPException` short-circuits), then the two required `File(...)` parts
are validated (absence is a 422 before the handler body); the body then
checks the storage client, reads the uploads, uses the user photo bytes
as the generated image (the placeholder generation step), derives the
storage key from the sanitized email, the UUID and the filename
extension, uploads, gets the public URL, inserts the metadata row and
returns success JSON; a raised storage or DB error is caught and becomes
a 500 with the error text.  The returned list is the external calls in
order; note that no check rejects empty file contents. -/
def generate_outfit_api (secret : String) (req : Request) (now : Nat)
    (user_photo outfit_photo : Option FilePart) (env : GenEnv) :
    HttpResponse × List ExtCall :=
  match require_login secret req now with
  | .error r => (r, [])
  | .ok user_email =>
    match user_photo, outfit_photo with
    | some up, some _op =>
      if !env.supabaseConfigured then
        ({ status := 500, body := .jsonDetail "Supabase not configured." }, [])
      else
        let user_photo_content := up.content
        let generated_image_bytes := user_photo_content
        let safe_user_id :=
          replaceChar (replaceChar user_email '@' "_at_") '.' "_dot_"
        let ext := pyOrStr (some (splitextExt up.filename)) ".jpg"
        let file_path := safe_user_id ++ "/" ++ env.uuid ++ ext
        let ct := pyOrStr up.contentType "image/jpeg"
        let uploadCall := ExtCall.storageUpload file_path generated_image_bytes ct
        match env.uploadError with
        | some msg => ({ status := 500, body := .jsonDetail msg }, [uploadCall])
        | none =>
          let public_url := env.publicUrl
          let insertCall := ExtCall.dbInsert user_email public_url
          match env.insertError with
          | some msg =>
            ({ status := 500, body := .jsonDetail msg },
             [uploadCall, insertCall])
          | none =>
            ({ status := 200, body := .jsonSuccess public_url },
             [uploadCall, insertCall])
    | _, _ => (validationErrorResponse, [])

/-- The process environment at startup. -/
def Env : Type := List (String × String)

/-- Python `os.environ.get`. -/
def envGet (k : String) (env : Env) : Option String :=
  env.lookup k

/-- src/main.py line 31: the session-signing secret, with the silent
fallback default. -/
def SESSION_SECRET_KEY (env : Env) : String :=
  (envGet "SESSION_SECRET_KEY" env).getD "unsafe-default-key"

/-- src/main.py line 49: the only configuration warning printed at
startup. -/
def googleApiKeyWarning : String :=
  "WARNING: GOOGLE_API_KEY missing. AI features won\x27t work."

/-- src/main.py lines 34-52: warnings printed while the module
initializes.  The only configuration-dependent print is the
GOOGLE_API_KEY warning of line 49 (the line 41 print fires only when the
storage client constructor itself throws, and concerns the storage
client); nothing is printed about `SESSION_SECRET_KEY`. -/
def startupWarnings (env : Env) : List String :=
  if (envGet "GOOGLE_API_KEY" env).isNone then [googleApiKeyWarning] else []

/-! Theorems. -/

/-- Unsigning a token issued with the same secret only checks the age:
the recomputed signature always matches. -/
theorem loads_dumps (secret : String) (p : Payload) (ts max_age now : Nat) :
    loads secret (dumps secret p ts) max_age now =
      if now - ts > max_age then none else some p := by
  simp [loads, dumps]

/-- Flipping any bit changes a natural number. -/
theorem xor_two_pow_ne (a i : Nat) : a ^^^ 2 ^ i ≠ a := by
  intro h
  have h1 : a ^^^ (a ^^^ 2 ^ i) = a ^^^ a := congrArg (a ^^^ ·) h
  rw [← Nat.xor_assoc, Nat.xor_self, Nat.zero_xor] at h1
  exact (pow_pos (by norm_num : (0 : ℕ) < 2) i).ne' h1

/-- C1: session codec round-trip — for every identity email, signing the
payload with key email under the server secret and verifying the token
with max age 86400 immediately after issuance (at the issuance instant)
yields the same email back. -/
theorem session_roundtrip (secret email : String) (ts : Nat) :
    get_current_user_email secret
      { cookie := some (dumps secret [("email", some email)] ts) } ts =
      some email := by
  simp [get_current_user_email, loads_dumps, dictGet, List.lookup]

/-- C2: session token expiry — verifying a token issued at time `ts` with
max age 86400 at any later time `now` returns the payload exactly when
`now` is at most `ts + 86400`, and invalid once `now` exceeds it; the
boundary `now = ts + 86400` is decided as still valid, since the codec
rejects only ages strictly greater than the max age. -/
theorem session_expiry (secret : String) (p : Payload) (ts now : Nat)
    (h : ts ≤ now) :
    loads secret (dumps secret p ts) 86400 now =
      if now ≤ ts + 86400 then some p else none := by
  rw [loads_dumps]
  split_ifs <;> first | rfl | omega

/-- Witness for C2, exercising both sides of the boundary. -/
theorem session_expiry_witness :
    (0 ≤ 86401 ∧
      loads "k" (dumps "k" [("email", some "a")] 0) 86400 86401 =
        if 86401 ≤ 0 + 86400 then some [("email", some "a")] else none) ∧
    (0 ≤ 86400 ∧
      loads "k" (dumps "k" [("email", some "a")] 0) 86400 86400 =
        if 86400 ≤ 0 + 86400 then some [("email", some "a")] else none) :=
  ⟨⟨by decide, session_expiry "k" [("email", some "a")] 0 86401 (by decide)⟩,
   ⟨by decide, session_expiry "k" [("email", some "a")] 0 86400 (by decide)⟩⟩

/-- C3: tamper detection — flipping any single bit of the signature
portion of an issued token makes verification return invalid, at every
verification time. -/
theorem session_tamper (secret : String) (p : Payload) (ts i now : Nat) :
    loads secret (flipSigBit i (dumps secret p ts)) 86400 now = none := by
  show loads secret (.signed p ts (mac secret p ts ^^^ 2 ^ i)) 86400 now = none
  rw [loads, if_neg (xor_two_pow_ne (mac secret p ts) i)]

/-- A request carrying no session cookie, a malformed session token, or a
session token whose issuance timestamp lies more than the 86400-second
TTL in the past. -/
def invalidSession (req : Request) (now : Nat) : Prop :=
  req.cookie = none ∨ (∃ s, req.cookie = some (.garbage s)) ∨
    (∃ p ts sig, req.cookie = some (.signed p ts sig) ∧ ts + 86400 < now)

/-- On an invalid session the cookie extraction yields no email. -/
theorem get_email_none_of_invalid (secret : String) (req : Request)
    (now : Nat) (h : invalidSession req now) :
    get_current_user_email secret req now = none := by
  rcases h with h | ⟨s, h⟩ | ⟨p, ts, sig, h, hts⟩
  · rw [get_current_user_email, h]
  · simp [get_current_user_email, h, loads]
  · have hexp : now - ts > 86400 := by omega
    simp [get_current_user_email, h, loads, hexp]

/-- C4: auth-gate page behavior — a GET of /dashboard with no session
cookie, a malformed session token, or an expired session token answers a
3xx redirect to the public landing route and never renders the dashboard
template. -/
theorem dashboard_gate (secret : String) (req : Request) (now : Nat)
    (h : invalidSession req now) :
    (dashboard_page secret req now).isRedirectTo "/" = true ∧
      (dashboard_page secret req now).rendersTemplate "dashboard.html"
        = false := by
  have hr : dashboard_page secret req now = authFailResponse := by
    rw [dashboard_page, require_login, get_email_none_of_invalid secret req now h]
  rw [hr]
  decide

/-- Witness for C4 at a cookieless request. -/
theorem dashboard_gate_witness :
    invalidSession { cookie := none } 0 ∧
      ((dashboard_page "k" { cookie := none } 0).isRedirectTo "/" = true ∧
        (dashboard_page "k" { cookie := none } 0).rendersTemplate
          "dashboard.html" = false) :=
  ⟨Or.inl rfl, dashboard_gate "k" { cookie := none } 0 (Or.inl rfl)⟩

/-- C10: totality of session extraction — `get_current_user_email` is a
total function into an option type (the bare except returns `None` instead
of propagating any exception), and it returns `None` when the cookie is
absent, when unsigning fails (bad signature, malformed token or expiry),
and when a validly unsigned payload has no email key, so such a token
never authenticates a request. -/
theorem get_current_user_email_total (secret : String) (req : Request)
    (now : Nat) :
    (req.cookie = none → get_current_user_email secret req now = none) ∧
    (∀ tok, req.cookie = some tok → loads secret tok 86400 now = none →
      get_current_user_email secret req now = none) ∧
    (∀ tok p, req.cookie = some tok → loads secret tok 86400 now = some p →
      p.lookup "email" = none →
      get_current_user_email secret req now = none) := by
  refine ⟨fun h => by rw [get_current_user_email, h],
    fun tok h hl => by simp [get_current_user_email, h, hl],
    fun tok p h hl hk => by simp [get_current_user_email, dictGet, h, hl, hk]⟩

/-- Witness for C10: a failed unsigning and a validly signed, unexpired
token whose payload lacks an email key both yield no email. -/
theorem get_current_user_email_total_witness :
    (loads "k" (TokenWire.garbage "x") 86400 0 = none ∧
      get_current_user_email "k" { cookie := some (.garbage "x") } 0
        = none) ∧
    (loads "k" (dumps "k" [("name", some "u")] 0) 86400 0 =
        some [("name", some "u")] ∧
      ([("name", some "u")] : Payload).lookup "email" = none ∧
      get_current_user_email "k"
        { cookie := some (dumps "k" [("name", some "u")] 0) } 0 = none) :=
  ⟨⟨by decide,
    (get_current_user_email_total "k" { cookie := some (.garbage "x") } 0).2.1
      (TokenWire.garbage "x") rfl (by decide)⟩,
   ⟨by decide, by decide,
    (get_current_user_email_total "k"
        { cookie := some (dumps "k" [("name", some "u")] 0) } 0).2.2
      (dumps "k" [("name", some "u")] 0) [("name", some "u")] rfl
      (by decide) (by decide)⟩⟩

/-- Sample non-empty uploaded photo. -/
def photoA : FilePart :=
  { filename := "a.jpg", contentType := some "image/jpeg", content := [1, 2] }

/-- Second sample non-empty uploaded photo. -/
def photoB : FilePart :=
  { filename := "b.jpg", contentType := some "image/jpeg", content := [3] }

/-- A generate-endpoint environment where every external call succeeds. -/
def envOk : GenEnv :=
  { supabaseConfigured := true, llmConfigured := true, uuid := "id1",
    uploadError := none, publicUrl := "PUB", insertError := none }

/-- C5 counterexample: a POST to /api/generate carrying no session cookie
is answered with status 307 — a Location redirect to /, not a
401/403-class rejection. -/
theorem api_gate_counterexample :
    (generate_outfit_api "k" { cookie := none } 0 (some photoA) (some photoB)
        envOk).1.status = 307 ∧
      ¬(401 ≤ (generate_outfit_api "k" { cookie := none } 0 (some photoA)
            (some photoB) envOk).1.status ∧
          (generate_outfit_api "k" { cookie := none } 0 (some photoA)
            (some photoB) envOk).1.status ≤ 403) ∧
      (generate_outfit_api "k" { cookie := none } 0 (some photoA)
          (some photoB) envOk).1.location = some "/" := by
  decide

/-- C5 (amended): every request to POST /api/generate without a valid
session cookie is rejected before the handler body runs, with the same
307 temporary-redirect to / that pages get, carrying only the fixed
detail text and triggering no external call. -/
theorem api_gate_rejects (secret : String) (req : Request) (now : Nat)
    (up op : Option FilePart) (env : GenEnv)
    (h : falsyStr (get_current_user_email secret req now) = true) :
    generate_outfit_api secret req now up op env = (authFailResponse, []) := by
  cases hg : get_current_user_email secret req now with
  | none => simp [generate_outfit_api, require_login, hg]
  | some s =>
    have hs : s = "" := by
      rw [hg] at h
      simpa [falsyStr] using h
    subst hs
    simp [generate_outfit_api, require_login, hg]

/-- Witness for the amended C5 at a cookieless request. -/
theorem api_gate_rejects_witness :
    falsyStr (get_current_user_email "k" { cookie := none } 0) = true ∧
      generate_outfit_api "k" { cookie := none } 0 (some photoA)
        (some photoB) envOk = (authFailResponse, []) :=
  ⟨rfl, api_gate_rejects "k" { cookie := none } 0 (some photoA) (some photoB)
    envOk rfl⟩

/-- A provider whose token exchange answers 2xx without any access token
while its userinfo endpoint answers 2xx regardless of the bearer value. -/
def envNoToken : CallbackEnv :=
  { tokenResp := { status := 200, json := [] },
    userinfoResp := fun _ =>
      { status := 200, json := [("email", some "a@b.c")] } }

/-- C6 counterexample: against `envNoToken` the callback with a code and
no error still sets a session cookie, although the token exchange body
carried no access token — the claimed only-if condition fails. -/
theorem callback_counterexample :
    (google_callback "k" (some "c") none envNoToken 0).setCookie =
        some (dumps "k" [("email", some "a@b.c")] 0) ∧
      dictGet "access_token" envNoToken.tokenResp.json = none := by
  constructor <;> rfl

/-- C6 (amended): the callback sets a session cookie exactly when the
error parameter is falsy, the code parameter is truthy, the token
exchange answers 2xx, and the userinfo call — made with whatever
access_token field the 2xx exchange body happened to carry, with no
presence check — answers 2xx; and whenever no cookie is set the response
is the plain redirect home. -/
theorem callback_cookie_iff (secret : String) (code error : Option String)
    (env : CallbackEnv) (ts : Nat) :
    ((google_callback secret code error env ts).setCookie.isSome = true ↔
      (falsyStr error = true ∧ falsyStr code = false ∧
        is2xx env.tokenResp = true ∧
        is2xx (env.userinfoResp
          (dictGet "access_token" env.tokenResp.json)) = true)) ∧
    ((google_callback secret code error env ts).setCookie = none →
      google_callback secret code error env ts = redirectHome) := by
  cases hfe : falsyStr error <;> cases hfc : falsyStr code <;>
    cases ht : is2xx env.tokenResp <;>
      cases hu : is2xx (env.userinfoResp
        (dictGet "access_token" env.tokenResp.json)) <;>
    simp [google_callback, hfe, hfc, ht, hu, redirectHome]

/-- Witness for the amended C6: a truthy error parameter yields the plain
redirect home without a cookie. -/
theorem callback_cookie_iff_witness :
    google_callback "k" none (some "denied")
        { tokenResp := { status := 200, json := [] },
          userinfoResp := fun _ => { status := 200, json := [] } } 0 =
      redirectHome :=
  (callback_cookie_iff "k" none (some "denied")
      { tokenResp := { status := 200, json := [] },
        userinfoResp := fun _ => { status := 200, json := [] } } 0).2 rfl

/-- C7: with client_id and redirect_uri both unset, /auth/google/login
does not fail explicitly — it answers a 307 redirect whose provider URL
embeds the stringified missing configuration as the literal text None. -/
theorem login_google_no_guard :
    login_google none none =
      { status := 307,
        location := some ("https://accounts.google.com/o/oauth2/v2/auth?client_id=None&redirect_uri=None&response_type=code&scope=openid+email+profile&access_type=online&prompt=select_account") } := by
  rfl

/-- Zero-byte uploaded user photo. -/
def emptyPhoto : FilePart :=
  { filename := "u.png", contentType := some "image/png", content := [] }

/-- Zero-byte uploaded outfit photo. -/
def emptyPhotoB : FilePart :=
  { filename := "o.png", contentType := some "image/png", content := [] }

/-- A request carrying a freshly issued valid session token. -/
def validSessionReq : Request :=
  { cookie := some (dumps "k" [("email", some "a@b.c")] 0) }

/-- C8: an authenticated POST to /api/generate whose two file parts are
present but zero-byte is not rejected — the handler body runs, performs
the storage upload and the database insert with the empty bytes, and
answers success. -/
theorem generate_empty_file_accepted :
    generate_outfit_api "k" validSessionReq 0 (some emptyPhoto)
        (some emptyPhotoB) envOk =
      ({ status := 200, body := .jsonSuccess "PUB" },
       [ExtCall.storageUpload "a_at_b_dot_c/id1.png" [] "image/png",
        ExtCall.dbInsert "a@b.c" "PUB"]) := by
  rfl

/-- C9: with SESSION_SECRET_KEY unset in the environment the service
silently falls back to the insecure default signing key; the startup
warning list — whose only possible configuration warning concerns
GOOGLE_API_KEY — carries no session-secret warning at all. -/
theorem session_secret_silent_default (env : Env)
    (h : envGet "SESSION_SECRET_KEY" env = none) :
    SESSION_SECRET_KEY env = "unsafe-default-key" ∧
      (startupWarnings env = [] ∨
        startupWarnings env = [googleApiKeyWarning]) := by
  constructor
  · rw [SESSION_SECRET_KEY, h]
    rfl
  · rw [startupWarnings]
    split_ifs <;> simp

/-- Witness for C9 at the empty environment. -/
theorem session_secret_silent_default_witness :
    envGet "SESSION_SECRET_KEY" [] = none ∧
      (SESSION_SECRET_KEY [] = "unsafe-default-key" ∧
        (startupWarnings [] = [] ∨
          startupWarnings [] = [googleApiKeyWarning])) :=
  ⟨rfl, session_secret_silent_default [] rfl⟩
